import Mathlib

/-!
Shallow embedding of `pga_scraper.py` (class `PGATourScraperFixed` and the
`test_scraper` driver) and proofs about it.

Python values parsed from JSON are modelled by the inductive type `Json`;
a row record (a Python dict built by the scraper) is an association list
from field name to `Json`; a pandas `DataFrame` built from a list of such
dicts is modelled as the list of records.  HTML documents are modelled
abstractly as the query results the scraper asks BeautifulSoup for
(the `__NEXT_DATA__` script, the candidate tables with their classes,
contained strings and rows, the ESPN containers, the stat item divs).
An HTTP fetch is either a network failure (a raised exception from
`session.get`) or a response with a status code and a parsed body.
Raised exceptions inside un-guarded code are modelled with `Option`.
-/

/-- A parsed JSON value (the result of `json.loads`). Numbers are modelled
as rationals, which covers both Python ints and the decimal literals the
scraper manipulates. -/
inductive Json where
  | null : Json
  | bool (b : Bool) : Json
  | num (q : ℚ) : Json
  | str (s : String) : Json
  | arr (elems : List Json) : Json
  | obj (fields : List (String × Json)) : Json

/-- One scraped row: a Python dict from field name to value, in insertion
order. Keys built by the scraper are distinct literals. -/
abbrev Record := List (String × Json)

/-- Python `d[k]` / `d.get(k)` on a dict: the value of the first matching
key. -/
def lookupField (r : List (String × Json)) (k : String) : Option Json :=
  List.lookup k r

/-- Navigation of one candidate key path, mirroring the inner loop of
`_extract_leaderboard_from_json`: descend while the current value is a dict
containing the key; the `for ... else` clause runs (the path "resolves")
exactly when no `break` happened, i.e. when every key was found. -/
def navigate : Json → List String → Option Json
  | j, [] => some j
  | Json.obj fields, k :: ks =>
    match List.lookup k fields with
    | some v => navigate v ks
    | none => none
  | _, _ :: _ => none

/-- Python `player.get(key, '')` inside `_extract_leaderboard_from_json`. -/
def playerGet (fields : List (String × Json)) (k : String) : Json :=
  match List.lookup k fields with
  | some v => v
  | none => Json.str ""

/-- The fixed translation of one player entry into a record
(`_extract_leaderboard_from_json`, the dict literal appended per player).
`player.get` is only defined on dicts: a non-dict element raises
`AttributeError` (modelled as `none`), which the method's `except` clause
turns into an empty result. -/
def playerToRecord : Json → Option Record
  | Json.obj fields => some
      [("player_name", playerGet fields "playerName"),
       ("position", playerGet fields "position"),
       ("total_score", playerGet fields "totalScore"),
       ("score_to_par", playerGet fields "scoreToPar"),
       ("thru", playerGet fields "thru"),
       ("today", playerGet fields "today")]
  | _ => none

/-- The three candidate key paths tried by `_extract_leaderboard_from_json`,
in source order. -/
def leaderboard_paths : List (List String) :=
  [["props", "pageProps", "leaderboard", "players"],
   ["props", "pageProps", "data", "leaderboard"],
   ["props", "pageProps", "initialState", "leaderboard", "players"]]

/-- The path loop of `_extract_leaderboard_from_json`: the first path that
fully resolves to a list is translated and returned (even when the list is
empty); a path that does not resolve, or resolves to a non-list, falls
through to the next; a non-dict element raises, and the `except` clause
returns the empty list. -/
def tryJsonPaths (data : Json) : List (List String) → List Record
  | [] => []
  | p :: ps =>
    match navigate data p with
    | some (Json.arr elems) =>
      match elems.mapM playerToRecord with
      | some recs => recs
      | none => []
    | _ => tryJsonPaths data ps

/-- `PGATourScraperFixed._extract_leaderboard_from_json`. -/
def extract_leaderboard_from_json (data : Json) : List Record :=
  tryJsonPaths data leaderboard_paths

/-! ## String helpers (Python semantics used by the scraper) -/

/-- Substring test on character lists: `needle` occurs contiguously in
`hay` (Python `needle in hay` on strings). -/
def hasSubList : List Char → List Char → Bool
  | hay, needle =>
    match hay with
    | [] => needle.isEmpty
    | _ :: t => needle.isPrefixOf hay || hasSubList t needle

/-- Python `needle in hay.lower()` for an already-lowercase `needle`
(ASCII lowering, applied character by character). -/
def containsCI (hay needle : String) : Bool :=
  hasSubList (hay.toList.map Char.toLower) needle.toList

/-- The Python whitespace characters `str.strip()` removes (the ASCII ones;
the scraped text in scope is ASCII). -/
def isPySpace (c : Char) : Bool :=
  c = ' ' || c = '\t' || c = '\n' || c = '\r' || c = '\x0b' || c = '\x0c'

/-- Python `s.strip()`. -/
def pyStrip (s : String) : String :=
  String.mk (((s.toList.dropWhile isPySpace).reverse.dropWhile isPySpace).reverse)

/-- Leftmost, non-overlapping deletion of every occurrence of the regex
`\([A-Z]{3}\)` (a parenthesized three-letter country code), the
`re.sub` in `scrape_espn_leaderboard`. At each position the pattern is
tried; on a match the five matched characters are consumed, otherwise one
character is emitted and the scan moves on. -/
def dropCountryCodesAux : Nat → List Char → List Char
  | 0, l => l
  | _ + 1, [] => []
  | fuel + 1, '(' :: rest =>
    match rest with
    | a :: b :: c :: ')' :: rest2 =>
      if a.isUpper && b.isUpper && c.isUpper then dropCountryCodesAux fuel rest2
      else '(' :: dropCountryCodesAux fuel rest
    | _ => '(' :: dropCountryCodesAux fuel rest
  | fuel + 1, ch :: rest => ch :: dropCountryCodesAux fuel rest

/-- The scan with enough fuel: every step consumes at least one character,
so `l.length` steps always finish the scan. -/
def dropCountryCodes (l : List Char) : List Char :=
  dropCountryCodesAux l.length l

/-- The name cleaning in `scrape_espn_leaderboard`:
`re.sub(r'\([A-Z]{3}\)', '', player_name).strip()`. -/
def clean_player_name (s : String) : String :=
  pyStrip (String.mk (dropCountryCodes s.toList))

/-! ## Numeric coercion (`get_player_historical_stats`) -/

/-- Digit-string to number, Python `int` on a string of decimal digits. -/
def digitsToNat (l : List Char) : Nat :=
  l.foldl (fun n c => 10 * n + (c.toNat - 48)) 0

/-- Python `re.sub(r'\D', '', s)`: remove every non-digit character. -/
def stripNonDigits (s : String) : String :=
  String.mk (s.toList.filter Char.isDigit)

/-- Python `int(re.sub(r'\D', '', s) or 0)`: remove non-digits, default to
zero on an empty result. This never raises: a non-empty result is all
digits, which `int` accepts. -/
def pyCleanInt (s : String) : Nat :=
  let d := stripNonDigits s
  if d.isEmpty then 0 else digitsToNat d.toList

/-- Python `re.sub(r'[^\d.]', '', s)`: remove everything but digits and
dots. -/
def stripNonDigitDot (s : String) : String :=
  String.mk (s.toList.filter (fun c => c.isDigit || c = '.'))

/-- Split a character list at every dot. -/
def splitAtDots (l : List Char) : List (List Char) :=
  l.foldr
    (fun c acc =>
      match acc with
      | g :: gs => if c = '.' then [] :: g :: gs else (c :: g) :: gs
      | [] => [[c]])
    [[]]

/-- Python `float` on a string made of digits and dots: accepted exactly
when it has at most one dot and at least one digit (`"45.6"`, `"1."`,
`".5"`); `"."`, `""` and multi-dot strings raise `ValueError` (`none`). -/
def pyFloatOfDigitsDots (l : List Char) : Option ℚ :=
  match splitAtDots l with
  | [a] => if a.isEmpty then none else some (digitsToNat a : ℚ)
  | [a, b] =>
    if a.isEmpty && b.isEmpty then none
    else some ((digitsToNat a : ℚ) + (digitsToNat b : ℚ) / 10 ^ b.length)
  | _ => none

/-- Python `float(re.sub(r'[^\d.]', '', s) or 0)`: strip, default to zero
on an empty result, otherwise parse; `none` models a raised
`ValueError`. -/
def pyCleanFloat (s : String) : Option ℚ :=
  let cl := stripNonDigitDot s
  if cl.isEmpty then some 0 else pyFloatOfDigitsDots cl.toList

/-! ## The abstract HTML model -/

/-- One `tr` element: the texts of its `td`/`th` cells, each already
`get_text(strip=True)`. -/
structure HRow where
  cells : List String
  deriving DecidableEq

/-- A table-like element as the scraper queries it: its `class` attribute
values, the strings it contains (for the keyword search) and its rows in
document order. -/
structure HTable where
  classes : List String
  strings : List String
  rows : List HRow
  deriving DecidableEq

/-- One of the `div`s with `stat` in its class on a player page: the texts
of its `label`/`value` spans. `none` models a span that is absent or empty
(a falsy `find` result: an empty tag has length 0 and fails
`if label and value`). -/
structure StatItem where
  label : Option String
  value : Option String
  deriving DecidableEq

/-- A parsed page, abstracted to the queries the scraper performs on it. -/
structure Soup where
  /-- The `script` tag with id `__NEXT_DATA__`: absent, or present with
  the result of `json.loads` on its string (`none` when that raises). -/
  nextDataScript : Option (Option Json)
  /-- All `table` elements, in document order. -/
  tables : List HTable
  /-- The `div` with class `ResponsiveTable` (ESPN), if any. -/
  espnResponsive : Option HTable
  /-- The `table` with class `Table` (ESPN), if any. -/
  espnTable : Option HTable
  /-- The `div`s with `stat` in their class on a player page. -/
  statItems : List StatItem

/-- The outcome of `self.session.get(url)`: a raised network exception, or
a response with a status code and parsed body. -/
inductive Fetch where
  | fail : Fetch
  | resp (status : Nat) (soup : Soup) : Fetch

/-! ## The markup-table fallback extractor -/

/-- `soup.find('table', {'class': lambda x: x and class_name in x})`:
BeautifulSoup applies a callable class filter to each class token of a tag
separately, and `class_name in x` on a token string is a substring test, so
this finds the first table one of whose class tokens contains `c` as a
substring (a token like `stats-table` matches the hint `table`); a table
without a class, or with only empty tokens, is falsy and never matches. -/
def findTableWithClass (soup : Soup) (c : String) : Option HTable :=
  soup.tables.find? (fun t => t.classes.any (fun cls => hasSubList cls.toList c.toList))

/-- The loop over `table_classes` in `_scrape_leaderboard_table`: the
first class name whose `find` succeeds wins. -/
def findByClassNames (soup : Soup) : List String → Option HTable
  | [] => none
  | c :: cs =>
    match findTableWithClass soup c with
    | some t => some t
    | none => findByClassNames soup cs

/-- `t.find(string=re.compile(r'(Player|Position|Score)', re.I))`: some
string in the table matches one of the keywords, case-insensitively. -/
def tableHasKeyword (t : HTable) : Bool :=
  t.strings.any (fun s =>
    containsCI s "player" || containsCI s "position" || containsCI s "score")

/-- The table-location logic of `_scrape_leaderboard_table`: first the
class-name candidates in order, then any table containing a keyword. -/
def locate_leaderboard_table (soup : Soup) : Option HTable :=
  match findByClassNames soup ["leaderboard", "table", "leaderboard-table"] with
  | some t => some t
  | none => soup.tables.find? tableHasKeyword

/-- The dict built per row in `_scrape_leaderboard_table`; `cells.getD i ""`
is exactly `cols[i].get_text(strip=True) if len(cols) > i else ''`. -/
def leaderboard_row_record (cells : List String) : Record :=
  [("position", Json.str (cells.getD 0 "")),
   ("player_name", Json.str (cells.getD 1 "")),
   ("score", Json.str (cells.getD 2 "")),
   ("thru", Json.str (cells.getD 3 "")),
   ("today", Json.str (cells.getD 4 ""))]

/-- `PGATourScraperFixed._scrape_leaderboard_table`: locate a table, skip
its first row, and append one record per remaining row with at least 3
cells. -/
def scrape_leaderboard_table (soup : Soup) : List Record :=
  match locate_leaderboard_table soup with
  | some table =>
    (table.rows.drop 1).filterMap
      (fun r => if 3 ≤ r.cells.length then some (leaderboard_row_record r.cells) else none)
  | none => []

/-! ## The primary pipeline -/

/-- `PGATourScraperFixed.get_current_leaderboard`: on a 200 response, try
the `__NEXT_DATA__` JSON first (a `json.loads` failure raises and the
`except` clause returns empty — it does not fall through to the table), and
fall back to table scraping when the script is absent or the JSON yields no
players; any other status, or a network failure, yields the empty frame. -/
def get_current_leaderboard : Fetch → List Record
  | Fetch.fail => []
  | Fetch.resp status soup =>
    if status = 200 then
      match soup.nextDataScript with
      | some (some data) =>
        let lb := extract_leaderboard_from_json data
        if lb.isEmpty then scrape_leaderboard_table soup else lb
      | some none => []
      | none => scrape_leaderboard_table soup
    else []

/-! ## The stats page scraper -/

/-- `soup.find('table', {'class': lambda x: x and 'stats' in str(x).lower()})`:
the first table with `stats` inside some class value, case-insensitively
(class values contain no quote or comma characters, so a match inside the
Python `str` rendering of the class list is a match inside one value). -/
def findStatsTable (soup : Soup) : Option HTable :=
  soup.tables.find? (fun t => t.classes.any (fun c => containsCI c "stats"))

/-- The table location in `scrape_player_stats_page`: the class lookup,
then `soup.find('table')` (the first table of the document). -/
def locate_stats_table (soup : Soup) : Option HTable :=
  match findStatsTable soup with
  | some t => some t
  | none => soup.tables.head?

/-- The dict built per row in `scrape_player_stats_page`. -/
def stats_row_record (cells : List String) : Record :=
  [("rank", Json.str (cells.getD 0 "")),
   ("player_name", Json.str (cells.getD 1 "")),
   ("value", Json.str (cells.getD 2 "")),
   ("rounds", Json.str (cells.getD 3 ""))]

/-- The row loop of `scrape_player_stats_page`: skip the header row, keep
only the first 50 remaining rows (`rows[:50]`), and append one record per
row with at least 3 cells. -/
def stats_rows_records (rows : List HRow) : List Record :=
  ((rows.drop 1).take 50).filterMap
    (fun r => if 3 ≤ r.cells.length then some (stats_row_record r.cells) else none)

/-- `PGATourScraperFixed.scrape_player_stats_page` (the chosen stat type
only selects the URL, which the model abstracts into the fetch). -/
def scrape_player_stats_page : Fetch → List Record
  | Fetch.fail => []
  | Fetch.resp status soup =>
    if status = 200 then
      match locate_stats_table soup with
      | some t => stats_rows_records t.rows
      | none => []
    else []

/-! ## The secondary (ESPN) source -/

/-- The container location in `scrape_espn_leaderboard`: the
`ResponsiveTable` div first, then the `Table` table. -/
def locate_espn_leaderboard (soup : Soup) : Option HTable :=
  match soup.espnResponsive with
  | some t => some t
  | none => soup.espnTable

/-- The dict built per row in `scrape_espn_leaderboard`, including the
country-code cleaning of the name cell. -/
def espn_row_record (cells : List String) : Record :=
  [("position", Json.str (cells.getD 0 "")),
   ("player_name", Json.str (clean_player_name (cells.getD 1 ""))),
   ("score", Json.str (cells.getD 2 "")),
   ("thru", Json.str (cells.getD 3 "")),
   ("today", Json.str (cells.getD 4 "")),
   ("r1", Json.str (cells.getD 5 "")),
   ("r2", Json.str (cells.getD 6 "")),
   ("r3", Json.str (cells.getD 7 "")),
   ("r4", Json.str (cells.getD 8 ""))]

/-- `PGATourScraperFixed.scrape_espn_leaderboard`. -/
def scrape_espn_leaderboard : Fetch → List Record
  | Fetch.fail => []
  | Fetch.resp status soup =>
    if status = 200 then
      match locate_espn_leaderboard soup with
      | some t =>
        (t.rows.drop 1).filterMap
          (fun r => if 3 ≤ r.cells.length then some (espn_row_record r.cells) else none)
      | none => []
    else []

/-! ## Player historical stats -/

/-- Does one stat item update the stats dict? True when both spans are
present (and truthy) and the lowered label contains one of the three
keywords. -/
def statItemMatches (it : StatItem) : Bool :=
  match it.label, it.value with
  | some lbl, some _ =>
    containsCI lbl "wins" || containsCI lbl "top 10" || containsCI lbl "earnings"
  | _, _ => false

/-- One iteration of the stat-item loop in `get_player_historical_stats`
over the state `(career_wins, career_top10s, career_earnings)`; `none`
models the `ValueError` a bad earnings string raises, which the `except`
clause turns into an empty dict. -/
def updateStats (st : Nat × Nat × ℚ) (it : StatItem) : Option (Nat × Nat × ℚ) :=
  match it.label, it.value with
  | some lbl, some v =>
    if containsCI lbl "wins" then some (pyCleanInt v, st.2.1, st.2.2)
    else if containsCI lbl "top 10" then some (st.1, pyCleanInt v, st.2.2)
    else if containsCI lbl "earnings" then
      match pyCleanFloat v with
      | some q => some (st.1, st.2.1, q)
      | none => none
    else some st
  | _, _ => some st

/-- `PGATourScraperFixed.get_player_historical_stats`: on a 200 response
build the stats dict with zero defaults, update it from the stat items,
and return it; a non-200 status returns the empty dict, and any raised
exception (a bad earnings value) discards the partial dict and returns the
empty dict. -/
def get_player_historical_stats (name : String) : Fetch → List (String × Json)
  | Fetch.fail => []
  | Fetch.resp status soup =>
    if status = 200 then
      match soup.statItems.foldlM updateStats (0, 0, (0 : ℚ)) with
      | some (w, t, e) =>
        [("player_name", Json.str name),
         ("career_wins", Json.num (w : ℚ)),
         ("career_top10s", Json.num (t : ℚ)),
         ("career_earnings", Json.num e)]
      | none => []
    else []

/-! ## Comprehensive stats and the driver -/

/-- The placeholder stat fields `get_comprehensive_stats` adds to every
player. -/
def placeholder_stats : Record :=
  [("strokes_gained_total", Json.num 0),
   ("driving_distance", Json.num 290),
   ("driving_accuracy", Json.num 60),
   ("gir_percentage", Json.num 65),
   ("scrambling", Json.num 55),
   ("putting_average", Json.num 29),
   ("world_ranking", Json.num 50),
   ("fedex_points", Json.num 500)]

/-- The per-player dict of `get_comprehensive_stats`.
`player_row['player_name']` raises `KeyError` when the column is absent
(`none`); the two `.get` calls default to the empty string. -/
def comp_record (r : Record) : Option Record :=
  match lookupField r "player_name" with
  | some v => some
      (("player_name", v) ::
       ("current_position", (lookupField r "position").getD (Json.str "")) ::
       ("current_score", (lookupField r "score").getD (Json.str "")) ::
       placeholder_stats)
  | none => none

/-- `PGATourScraperFixed.get_comprehensive_stats`: the primary pipeline
first, the ESPN source when it came back empty; an empty base yields the
empty frame. The method has no `try`, so a raised `KeyError` would
propagate (`none`). -/
def get_comprehensive_stats (f1 f2 : Fetch) : Option (List Record) :=
  let primary := get_current_leaderboard f1
  let base := if primary.isEmpty then scrape_espn_leaderboard f2 else primary
  if base.isEmpty then some [] else base.mapM comp_record

/-- The saving loop of `test_scraper`: the four datasets are computed (each
with its own fetch), the non-empty ones enter the results dict in order,
and one CSV file is written per entry; the returned list is the categories
written. `none` models an exception propagating out of
`get_comprehensive_stats`, which would abort the run before saving. -/
def test_scraper_categories (fLb fEs fSt fC1 fC2 : Fetch) : Option (List String) :=
  let lb := get_current_leaderboard fLb
  let es := scrape_espn_leaderboard fEs
  let st := scrape_player_stats_page fSt
  match get_comprehensive_stats fC1 fC2 with
  | none => none
  | some comp =>
    let entries : List (String × List Record) :=
      (if lb.isEmpty then [] else [("pga_leaderboard", lb)]) ++
      (if es.isEmpty then [] else [("espn_leaderboard", es)]) ++
      (if st.isEmpty then [] else [("stats", st)]) ++
      (if comp.isEmpty then [] else [("comprehensive", comp)])
    some (entries.filterMap (fun e => if e.2.isEmpty then none else some e.1))

/-! ## The CSV export (model of `pandas.DataFrame` / `to_csv` as
`test_scraper` uses them) -/

/-- Columns of the frame `pd.DataFrame(records)` builds from a list of
dicts: the union of the keys, in first-seen order. -/
def df_columns (records : List Record) : List String :=
  records.foldl
    (fun acc r => acc ++ (r.map Prod.fst).filter (fun k => !acc.contains k)) []

/-- The data rows `to_csv` writes below the header: one row per record, one
cell per column, a missing key rendering as an empty cell (`Json.null`
stands for pandas `NaN`). -/
def to_csv_rows (records : List Record) : List (List Json) :=
  records.map (fun r => (df_columns records).map (fun k => (lookupField r k).getD Json.null))

/-! ## Concrete example inputs used by the proofs -/

/-- A concrete `__NEXT_DATA__` document whose first candidate path holds a
one-player list. -/
def sampleNextData : Json :=
  Json.obj [("props", Json.obj [("pageProps", Json.obj [("leaderboard", Json.obj
    [("players", Json.arr
      [Json.obj [("playerName", Json.str "Scottie"), ("position", Json.str "1")]])])])])]

/-- A concrete page: one keyword-bearing table with a header row, two data
rows and one short row. -/
def sampleTableSoup : Soup :=
  { nextDataScript := none
    tables := [
      { classes := ["leaderboard"]
        strings := ["Player"]
        rows := [⟨["Pos", "Player", "Score"]⟩,
                 ⟨["1", "Scheffler", "-10", "F"]⟩,
                 ⟨["cut"]⟩,
                 ⟨["2", "Rahm", "-8"]⟩] }]
    espnResponsive := none
    espnTable := none
    statItems := [] }

/-- The three-record example of the export property: field sets
`{a,b}`, `{a,c}`, `{a,b,c}`. -/
def c7_example : List Record :=
  [[("a", Json.str "1"), ("b", Json.str "2")],
   [("a", Json.str "3"), ("c", Json.str "4")],
   [("a", Json.str "5"), ("b", Json.str "6"), ("c", Json.str "7")]]

/-- Fifty-two identical data rows below a header row. -/
def c8_rows : List HRow :=
  ⟨["Rank", "Player", "Value"]⟩ :: List.replicate 52 (⟨["1", "A", "-1"]⟩ : HRow)

/-- The record the sample document's one player entry translates to. -/
def sampleNextDataRec : Record :=
  [("player_name", Json.str "Scottie"), ("position", Json.str "1"),
   ("total_score", Json.str ""), ("score_to_par", Json.str ""),
   ("thru", Json.str ""), ("today", Json.str "")]

/-- The shape claim C10 asserts of the historical-stats result, as a
checkable predicate: the result is the empty dict, or it has exactly the
four keys `player_name, career_wins, career_top10s, career_earnings`, with
the given player name and numeric values in the three career fields. -/
def historical_shape_ok (name : String) (r : List (String × Json)) : Bool :=
  r.isEmpty ||
  ((r.map Prod.fst == ["player_name", "career_wins", "career_top10s", "career_earnings"]) &&
   (match lookupField r "player_name" with
    | some (Json.str s) => s == name
    | _ => false) &&
   (match lookupField r "career_wins" with
    | some (Json.num _) => true
    | _ => false) &&
   (match lookupField r "career_top10s" with
    | some (Json.num _) => true
    | _ => false) &&
   (match lookupField r "career_earnings" with
    | some (Json.num _) => true
    | _ => false))

/-- A stat list with one non-matching item and a page whose earnings value
raises on coercion. -/
def c10_soup : Soup :=
  { nextDataScript := none, tables := [], espnResponsive := none, espnTable := none
    statItems := [⟨some "Age", some "29"⟩, ⟨none, some "3"⟩] }

/-- A page with an earnings value whose cleaned string has two dots, so
`float` raises. -/
def c10_bad_soup : Soup :=
  { nextDataScript := none, tables := [], espnResponsive := none, espnTable := none
    statItems := [⟨some "Career Earnings", some "$1.2.3"⟩] }

/-- The empty page: no script, no tables, no stat items. -/
def emptySoup : Soup :=
  { nextDataScript := none, tables := [], espnResponsive := none,
    espnTable := none, statItems := [] }

/-! ## Helper lemmas -/

theorem filterMap_ite_eq_filter_map {α β : Type} (p : α → Prop) [DecidablePred p]
    (f : α → β) (l : List α) :
    (l.filterMap (fun x => if p x then some (f x) else none)) =
      (l.filter (fun x => p x)).map f := by
  induction l with
  | nil => rfl
  | cons x xs ih =>
    by_cases hx : p x <;>
      simp [List.filterMap_cons, List.filter_cons, hx, ih]

theorem mapM_option_isSome {α β : Type} (f : α → Option β) (l : List α)
    (h : ∀ x ∈ l, (f x).isSome) : (l.mapM f).isSome := by
  induction l with
  | nil => simp only [List.mapM_nil, Option.pure_def, Option.isSome_some]
  | cons x xs ih =>
    rcases Option.isSome_iff_exists.mp (h x (List.mem_cons_self x xs)) with ⟨y, hy⟩
    rcases Option.isSome_iff_exists.mp (ih fun a ha => h a (List.mem_cons_of_mem x ha))
      with ⟨ys, hys⟩
    simp only [List.mapM_cons, Option.pure_def, Option.bind_eq_bind, hy, hys,
      Option.some_bind, Option.isSome_some]

theorem mapM_option_mem {α β : Type} (f : α → Option β) :
    ∀ (l : List α) (ys : List β), l.mapM f = some ys →
      ∀ y ∈ ys, ∃ x ∈ l, f x = some y := by
  intro l
  induction l with
  | nil =>
    intro ys h y hy
    simp only [List.mapM_nil, Option.pure_def, Option.some.injEq] at h
    subst h
    simp at hy
  | cons x xs ih =>
    intro ys h y hy
    simp only [List.mapM_cons, Option.pure_def, Option.bind_eq_bind,
      Option.bind_eq_some] at h
    rcases h with ⟨z, hz, rest, hrest, hys⟩
    rcases Option.some.injEq .. ▸ hys with rfl
    rcases List.mem_cons.mp hy with rfl | hmem
    · exact ⟨x, List.mem_cons_self x xs, hz⟩
    · rcases ih rest hrest y hmem with ⟨a, ha, hfa⟩
      exact ⟨a, List.mem_cons_of_mem x ha, hfa⟩

theorem tryJsonPaths_eq_nil_of_no_list (data : Json) :
    ∀ ps, (∀ p ∈ ps, ∀ e, navigate data p ≠ some (Json.arr e)) →
      tryJsonPaths data ps = [] := by
  intro ps
  induction ps with
  | nil => intro _; rfl
  | cons p ps ih =>
    intro h
    have hp := h p (List.mem_cons_self p ps)
    simp only [tryJsonPaths]
    cases hnav : navigate data p with
    | none => exact ih fun q hq => h q (List.mem_cons_of_mem p hq)
    | some j =>
      cases j with
      | arr elems => exact absurd hnav (hp elems)
      | null => exact ih fun q hq => h q (List.mem_cons_of_mem p hq)
      | bool b => exact ih fun q hq => h q (List.mem_cons_of_mem p hq)
      | num q0 => exact ih fun q hq => h q (List.mem_cons_of_mem p hq)
      | str s => exact ih fun q hq => h q (List.mem_cons_of_mem p hq)
      | obj fields => exact ih fun q hq => h q (List.mem_cons_of_mem p hq)

theorem tryJsonPaths_first_wins (data : Json) :
    ∀ (ps₁ : List (List String)) (p : List String) (ps₂ : List (List String))
      (elems : List Json) (recs : List Record),
      (∀ q ∈ ps₁, ∀ e, navigate data q ≠ some (Json.arr e)) →
      navigate data p = some (Json.arr elems) →
      elems.mapM playerToRecord = some recs →
      tryJsonPaths data (ps₁ ++ p :: ps₂) = recs := by
  intro ps₁
  induction ps₁ with
  | nil =>
    intro p ps₂ elems recs _ hp hmap
    simp only [List.nil_append, tryJsonPaths, hp, hmap]
  | cons q qs ih =>
    intro p ps₂ elems recs h hp hmap
    have hq := h q (List.mem_cons_self q qs)
    have htail := ih p ps₂ elems recs (fun a ha => h a (List.mem_cons_of_mem q ha)) hp hmap
    simp only [List.cons_append, tryJsonPaths]
    cases hnav : navigate data q with
    | none => exact htail
    | some j =>
      cases j with
      | arr elems2 => exact absurd hnav (hq elems2)
      | null => exact htail
      | bool b => exact htail
      | num q0 => exact htail
      | str s => exact htail
      | obj fields => exact htail

/-! ## Claims -/

/-- Claim C1: the JSON-path extractor, given a parsed document and the fixed
ordered list of three candidate key-paths, tries each path in order; the
first path resolving to a list wins, each element being translated through
`playerToRecord` (source key `playerName` to field `player_name`, etc.);
and on a document where no candidate path resolves to a list it returns the
empty record set and raises nothing. -/
theorem claim_C1_json_extractor (data : Json) :
    ((∀ p ∈ leaderboard_paths, ∀ e, navigate data p ≠ some (Json.arr e)) →
      extract_leaderboard_from_json data = []) ∧
    (∀ (ps₁ : List (List String)) (p : List String) (ps₂ : List (List String))
        (elems : List Json) (recs : List Record),
      leaderboard_paths = ps₁ ++ p :: ps₂ →
      (∀ q ∈ ps₁, ∀ e, navigate data q ≠ some (Json.arr e)) →
      navigate data p = some (Json.arr elems) →
      elems.mapM playerToRecord = some recs →
      extract_leaderboard_from_json data = recs) := by
  constructor
  · intro h
    exact tryJsonPaths_eq_nil_of_no_list data leaderboard_paths h
  · intro ps₁ p ps₂ elems recs hsplit hprev hp hmap
    show tryJsonPaths data leaderboard_paths = recs
    rw [hsplit]
    exact tryJsonPaths_first_wins data ps₁ p ps₂ elems recs hprev hp hmap

/-- Witness for C1 at concrete inputs: a document without the paths yields
the empty set; the sample document yields its one translated record, the
absent source keys defaulting to the empty string. -/
theorem claim_C1_witness :
    extract_leaderboard_from_json (Json.str "plain") = [] ∧
    extract_leaderboard_from_json sampleNextData =
      [[("player_name", Json.str "Scottie"), ("position", Json.str "1"),
        ("total_score", Json.str ""), ("score_to_par", Json.str ""),
        ("thru", Json.str ""), ("today", Json.str "")]] := by
  constructor
  · refine (claim_C1_json_extractor (Json.str "plain")).1 ?_
    intro p hp e h
    simp only [leaderboard_paths, List.mem_cons, List.not_mem_nil, or_false] at hp
    rcases hp with rfl | rfl | rfl <;> exact Option.noConfusion h
  · exact (claim_C1_json_extractor sampleNextData).2
      []
      ["props", "pageProps", "leaderboard", "players"]
      [["props", "pageProps", "data", "leaderboard"],
       ["props", "pageProps", "initialState", "leaderboard", "players"]]
      [Json.obj [("playerName", Json.str "Scottie"), ("position", Json.str "1")]]
      _
      rfl (by intro q hq; exact absurd hq (List.not_mem_nil q)) rfl rfl

/-- Claim C2: once a table is located, the markup fallback skips the first
(header) row and, in document order, emits exactly one record per remaining
row with at least three cells — cell 0 to position, cell 1 to name, cell 2
to score, cells 3 and 4 to the optional extra fields — and no record for a
row with fewer than three cells. -/
theorem claim_C2_table_fallback (soup : Soup) (t : HTable)
    (h : locate_leaderboard_table soup = some t) :
    scrape_leaderboard_table soup =
      ((t.rows.drop 1).filter (fun r => 3 ≤ r.cells.length)).map
        (fun r => leaderboard_row_record r.cells) := by
  unfold scrape_leaderboard_table
  rw [h]
  exact filterMap_ite_eq_filter_map (fun r : HRow => 3 ≤ r.cells.length)
    (fun r => leaderboard_row_record r.cells) (t.rows.drop 1)

/-- Witness for C2 at the concrete page: the header and the short row
produce nothing, the two data rows produce their records in order. -/
theorem claim_C2_witness :
    scrape_leaderboard_table sampleTableSoup =
      [[("position", Json.str "1"), ("player_name", Json.str "Scheffler"),
        ("score", Json.str "-10"), ("thru", Json.str "F"), ("today", Json.str "")],
       [("position", Json.str "2"), ("player_name", Json.str "Rahm"),
        ("score", Json.str "-8"), ("thru", Json.str ""), ("today", Json.str "")]] :=
  (claim_C2_table_fallback sampleTableSoup
    { classes := ["leaderboard"]
      strings := ["Player"]
      rows := [⟨["Pos", "Player", "Score"]⟩,
               ⟨["1", "Scheffler", "-10", "F"]⟩,
               ⟨["cut"]⟩,
               ⟨["2", "Rahm", "-8"]⟩] } rfl).trans rfl

/-- Claim C5: integer coercion removes every non-digit first and defaults
to zero on an empty result (`"1,234"` to `1234`, `""` to `0`); float
coercion removes every non-digit-non-dot character first (`"$45.6M"`
stripped to `"45.6"`, parsed to `45.6`) and defaults to zero on an empty
result. -/
theorem claim_C5_numeric_coercion :
    pyCleanInt "1,234" = 1234 ∧ pyCleanInt "" = 0 ∧
    stripNonDigitDot "$45.6M" = "45.6" ∧
    pyCleanFloat "$45.6M" = some (45.6 : ℚ) ∧
    pyCleanFloat "" = some 0 := by
  refine ⟨by decide, by decide, by decide, ?_, by decide⟩
  have h : pyCleanFloat "$45.6M" = some ((45 : ℚ) + 6 / 10 ^ 1) := rfl
  rw [h]
  norm_num

/-- Claim C6: the secondary-source name cleaning strips a trailing
parenthesized country code by pattern substitution. -/
theorem claim_C6_name_cleaning :
    clean_player_name "Jon Rahm (ESP)" = "Jon Rahm" := by decide

theorem df_columns_aux_mem :
    ∀ (rs : List Record) (acc : List String) (k : String),
      (k ∈ rs.foldl (fun acc r => acc ++ (r.map Prod.fst).filter (fun k => !acc.contains k)) acc) ↔
      (k ∈ acc ∨ ∃ r ∈ rs, k ∈ r.map Prod.fst) := by
  intro rs
  induction rs with
  | nil => simp
  | cons r rs ih =>
    intro acc k
    simp only [List.foldl_cons]
    rw [ih]
    simp only [List.mem_append, List.mem_filter, Bool.not_eq_true',
      List.mem_cons]
    constructor
    · rintro ((hacc | ⟨hk, _⟩) | ⟨a, ha, hka⟩)
      · exact Or.inl hacc
      · exact Or.inr ⟨r, Or.inl rfl, hk⟩
      · exact Or.inr ⟨a, Or.inr ha, hka⟩
    · rintro (hacc | ⟨a, (rfl | ha), hka⟩)
      · exact Or.inl (Or.inl hacc)
      · by_cases hacc : k ∈ acc
        · exact Or.inl (Or.inl hacc)
        · refine Or.inl (Or.inr ⟨hka, ?_⟩)
          rw [← Bool.not_eq_true]
          simpa [List.elem_iff] using hacc
      · exact Or.inr ⟨a, ha, hka⟩

/-- Claim C7: the exported column order is the first-seen key order across
records and the columns are the union of the keys; one data row is written
per record; on the three-record example the columns come out `a, b, c` and
exactly three data rows are written. -/
theorem claim_C7_export :
    df_columns c7_example = ["a", "b", "c"] ∧
    (to_csv_rows c7_example).length = 3 ∧
    (∀ records : List Record, (to_csv_rows records).length = records.length) ∧
    (∀ (records : List Record) (k : String),
      k ∈ df_columns records ↔ ∃ r ∈ records, k ∈ r.map Prod.fst) := by
  refine ⟨by decide, rfl, fun records => List.length_map records _, ?_⟩
  intro records k
  unfold df_columns
  rw [df_columns_aux_mem records [] k]
  simp

theorem stats_rows_records_length_le (rows : List HRow) :
    (stats_rows_records rows).length ≤ 50 :=
  le_trans (List.length_filterMap_le _ _)
    (le_trans (List.length_take_le _ _) (le_refl 50))

/-- Claim C8: the stats-page scraper emits at most 50 records — after the
header row only the first 50 remaining rows are considered, and appending
further rows (of any cell count) changes nothing. -/
theorem claim_C8_stats_cap (f : Fetch) (rows extra : List HRow)
    (h : 50 ≤ (rows.drop 1).length) :
    (scrape_player_stats_page f).length ≤ 50 ∧
    stats_rows_records (rows ++ extra) = stats_rows_records rows := by
  constructor
  · cases f with
    | fail => exact Nat.zero_le 50
    | resp status soup =>
      simp only [scrape_player_stats_page]
      by_cases hs : status = 200
      · simp only [hs, if_pos rfl]
        cases locate_stats_table soup with
        | none => exact Nat.zero_le 50
        | some t => exact stats_rows_records_length_le t.rows
      · simp only [if_neg hs]
        exact Nat.zero_le 50
  · have h1 : 1 ≤ rows.length := by
      have := List.length_drop 1 rows
      omega
    unfold stats_rows_records
    rw [List.drop_append_of_le_length h1, List.take_append_of_le_length h]

/-- Witness for C8: the cap holds on a failed fetch, and appending one more
(3-cell) row after 52 data rows leaves the output unchanged. -/
theorem claim_C8_witness :
    (scrape_player_stats_page Fetch.fail).length ≤ 50 ∧
    stats_rows_records (c8_rows ++ [⟨["53", "Last", "0"]⟩]) = stats_rows_records c8_rows :=
  claim_C8_stats_cap Fetch.fail c8_rows [⟨["53", "Last", "0"]⟩] (by decide)

theorem tryJsonPaths_mem (data : Json) :
    ∀ (ps : List (List String)) (r : Record), r ∈ tryJsonPaths data ps →
      ∃ e, playerToRecord e = some r := by
  intro ps
  induction ps with
  | nil => intro r hr; exact absurd hr (List.not_mem_nil r)
  | cons p ps ih =>
    intro r hr
    simp only [tryJsonPaths] at hr
    split at hr
    · split at hr
      · rename_i elems hnav x recs hmap
        rcases mapM_option_mem playerToRecord elems recs hmap r hr with ⟨e, _, he⟩
        exact ⟨e, he⟩
      · exact absurd hr (List.not_mem_nil r)
    · exact ih r hr

/-- Claim C9: every record the JSON-path extractor produces has exactly the
six fields `player_name, position, total_score, score_to_par, thru, today`,
in that order; and whenever a source key is absent from the player entry
the corresponding field holds the empty string. -/
theorem claim_C9_json_record_fields (data : Json) (r : Record)
    (hr : r ∈ extract_leaderboard_from_json data) :
    r.map Prod.fst =
      ["player_name", "position", "total_score", "score_to_par", "thru", "today"] ∧
    (∀ (fields : List (String × Json)) (src dst : String),
      playerToRecord (Json.obj fields) = some r →
      (src, dst) ∈ [("playerName", "player_name"), ("position", "position"),
        ("totalScore", "total_score"), ("scoreToPar", "score_to_par"),
        ("thru", "thru"), ("today", "today")] →
      List.lookup src fields = none →
      lookupField r dst = some (Json.str "")) := by
  constructor
  · rcases tryJsonPaths_mem data leaderboard_paths r hr with ⟨e, he⟩
    cases e with
    | obj fields =>
      rcases Option.some.inj he with rfl
      rfl
    | null => exact absurd he (by simp [playerToRecord])
    | bool b => exact absurd he (by simp [playerToRecord])
    | num q => exact absurd he (by simp [playerToRecord])
    | str s => exact absurd he (by simp [playerToRecord])
    | arr elems => exact absurd he (by simp [playerToRecord])
  · intro fields src dst hf htrans habs
    rcases Option.some.inj hf with rfl
    simp only [List.mem_cons, List.not_mem_nil, or_false, Prod.mk.injEq] at htrans
    rcases htrans with ⟨rfl, rfl⟩ | ⟨rfl, rfl⟩ | ⟨rfl, rfl⟩ | ⟨rfl, rfl⟩ | ⟨rfl, rfl⟩ | ⟨rfl, rfl⟩ <;>
      simp [lookupField, List.lookup, playerGet, habs]

/-- Witness for C9 at the sample document: its one record carries exactly
the six fields, and the absent `totalScore` key surfaces as an empty
`total_score`. -/
theorem claim_C9_witness :
    sampleNextDataRec.map Prod.fst =
      ["player_name", "position", "total_score", "score_to_par", "thru", "today"] ∧
    lookupField sampleNextDataRec "total_score" = some (Json.str "") := by
  have hr : sampleNextDataRec ∈ extract_leaderboard_from_json sampleNextData := by
    have h : extract_leaderboard_from_json sampleNextData = [sampleNextDataRec] := rfl
    rw [h]
    exact List.mem_singleton_self _
  exact ⟨(claim_C9_json_record_fields sampleNextData sampleNextDataRec hr).1,
    (claim_C9_json_record_fields sampleNextData sampleNextDataRec hr).2
      [("playerName", Json.str "Scottie"), ("position", Json.str "1")]
      "totalScore" "total_score" rfl (by simp) rfl⟩

theorem updateStats_of_not_matches (st : Nat × Nat × ℚ) (it : StatItem)
    (h : statItemMatches it = false) : updateStats st it = some st := by
  unfold statItemMatches at h
  unfold updateStats
  cases hl : it.label with
  | none => cases hv : it.value <;> rfl
  | some lbl =>
    cases hv : it.value with
    | none => rfl
    | some v =>
      rw [hl, hv] at h
      simp only [Bool.or_eq_false_iff] at h
      simp [h.1.1, h.1.2, h.2]

theorem foldlM_updateStats_no_match (items : List StatItem) :
    ∀ st : Nat × Nat × ℚ, (∀ it ∈ items, statItemMatches it = false) →
      items.foldlM updateStats st = some st := by
  induction items with
  | nil => intro st _; rfl
  | cons it items ih =>
    intro st h
    have h1 := updateStats_of_not_matches st it (h it (List.mem_cons_self it items))
    calc (it :: items).foldlM updateStats st
        = updateStats st it >>= fun st2 => items.foldlM updateStats st2 := by
          simp [List.foldlM_cons]
      _ = some st := by
          rw [h1]
          simpa using ih st fun a ha => h a (List.mem_cons_of_mem it ha)

/-- Claim C10: for every player name, `get_player_historical_stats` returns
either the empty dict (in particular on a non-200 status and on a raised
coercion error, which discards the partial fields) or a dict with exactly
the keys `player_name, career_wins, career_top10s, career_earnings` whose
career values are numeric; and when no stat element matches, the three
career values are zero. -/
theorem claim_C10_historical_stats (name : String) (g : Fetch) (soup bad : Soup)
    (status : Nat)
    (hnm : ∀ it ∈ soup.statItems, statItemMatches it = false)
    (hstatus : status ≠ 200)
    (hexc : bad.statItems.foldlM updateStats (0, 0, (0 : ℚ)) = none) :
    historical_shape_ok name (get_player_historical_stats name g) = true ∧
    get_player_historical_stats name (Fetch.resp 200 soup) =
      [("player_name", Json.str name), ("career_wins", Json.num 0),
       ("career_top10s", Json.num 0), ("career_earnings", Json.num 0)] ∧
    get_player_historical_stats name (Fetch.resp status soup) = [] ∧
    get_player_historical_stats name (Fetch.resp 200 bad) = [] := by
  refine ⟨?_, ?_, ?_, ?_⟩
  · cases g with
    | fail => rfl
    | resp st2 soup2 =>
      simp only [get_player_historical_stats]
      by_cases hs : st2 = 200
      · simp only [hs, if_pos rfl]
        cases soup2.statItems.foldlM updateStats (0, 0, (0 : ℚ)) with
        | none => rfl
        | some wte =>
          rcases wte with ⟨w, t, e⟩
          simp [historical_shape_ok, lookupField, List.lookup]
      · simp only [if_neg hs]
        rfl
  · simp only [get_player_historical_stats]
    rw [foldlM_updateStats_no_match soup.statItems (0, 0, (0 : ℚ)) hnm]
    simp
  · simp only [get_player_historical_stats]
    simp only [if_neg hstatus]
  · simp only [get_player_historical_stats]
    rw [hexc]
    simp

/-- Witness for C10 at concrete inputs. -/
theorem claim_C10_witness :
    historical_shape_ok "Rahm" (get_player_historical_stats "Rahm" Fetch.fail) = true ∧
    get_player_historical_stats "Rahm" (Fetch.resp 200 c10_soup) =
      [("player_name", Json.str "Rahm"), ("career_wins", Json.num 0),
       ("career_top10s", Json.num 0), ("career_earnings", Json.num 0)] ∧
    get_player_historical_stats "Rahm" (Fetch.resp 404 c10_soup) = [] ∧
    get_player_historical_stats "Rahm" (Fetch.resp 200 c10_bad_soup) = [] :=
  claim_C10_historical_stats "Rahm" Fetch.fail c10_soup c10_bad_soup 404
    (by decide) (by decide) (by decide)

theorem playerToRecord_has_name (e : Json) (r : Record)
    (he : playerToRecord e = some r) : (lookupField r "player_name").isSome := by
  cases e with
  | obj fields =>
    rcases Option.some.inj he with rfl
    rfl
  | null => exact absurd he (by simp [playerToRecord])
  | bool b => exact absurd he (by simp [playerToRecord])
  | num q => exact absurd he (by simp [playerToRecord])
  | str s => exact absurd he (by simp [playerToRecord])
  | arr elems => exact absurd he (by simp [playerToRecord])

theorem scrape_leaderboard_table_has_name (soup : Soup) :
    ∀ r ∈ scrape_leaderboard_table soup, (lookupField r "player_name").isSome := by
  intro r hr
  unfold scrape_leaderboard_table at hr
  split at hr
  · rcases List.mem_filterMap.mp hr with ⟨row, _, hrow⟩
    split at hrow
    · rcases Option.some.inj hrow with rfl
      rfl
    · exact absurd hrow (by simp)
  · exact absurd hr (List.not_mem_nil r)

theorem scrape_espn_leaderboard_has_name (f : Fetch) :
    ∀ r ∈ scrape_espn_leaderboard f, (lookupField r "player_name").isSome := by
  intro r hr
  cases f with
  | fail => exact absurd hr (List.not_mem_nil r)
  | resp status soup =>
    simp only [scrape_espn_leaderboard] at hr
    by_cases hs : status = 200
    · rw [if_pos hs] at hr
      split at hr
      · rcases List.mem_filterMap.mp hr with ⟨row, _, hrow⟩
        split at hrow
        · rcases Option.some.inj hrow with rfl
          rfl
        · exact absurd hrow (by simp)
      · exact absurd hr (List.not_mem_nil r)
    · rw [if_neg hs] at hr
      exact absurd hr (List.not_mem_nil r)

theorem get_current_leaderboard_has_name (f : Fetch) :
    ∀ r ∈ get_current_leaderboard f, (lookupField r "player_name").isSome := by
  intro r hr
  cases f with
  | fail => exact absurd hr (List.not_mem_nil r)
  | resp status soup =>
    simp only [get_current_leaderboard] at hr
    by_cases hs : status = 200
    · rw [if_pos hs] at hr
      split at hr
      · rename_i data hscript
        split at hr
        · exact scrape_leaderboard_table_has_name soup r hr
        · rcases tryJsonPaths_mem data leaderboard_paths r hr with ⟨e, he⟩
          exact playerToRecord_has_name e r he
      · exact absurd hr (List.not_mem_nil r)
      · exact scrape_leaderboard_table_has_name soup r hr
    · rw [if_neg hs] at hr
      exact absurd hr (List.not_mem_nil r)

theorem get_comprehensive_stats_isSome (f1 f2 : Fetch) :
    (get_comprehensive_stats f1 f2).isSome := by
  unfold get_comprehensive_stats
  by_cases h : (if (get_current_leaderboard f1).isEmpty
      then scrape_espn_leaderboard f2 else get_current_leaderboard f1).isEmpty
  · simp [h]
  · simp only [if_neg h]
    apply mapM_option_isSome
    intro r hr
    have hname : (lookupField r "player_name").isSome := by
      by_cases hp : (get_current_leaderboard f1).isEmpty
      · rw [if_pos hp] at hr
        exact scrape_espn_leaderboard_has_name f2 r hr
      · rw [if_neg hp] at hr
        exact get_current_leaderboard_has_name f1 r hr
    rcases Option.isSome_iff_exists.mp hname with ⟨v, hv⟩
    unfold comp_record
    rw [hv]
    simp

/-- Claim C3: when the primary pipeline yields an empty record set the
secondary source is attempted; when the secondary source is also empty, the
comprehensive result is the empty set (and no exception), and the driver
writes no file for it. -/
theorem claim_C3_secondary_fallback (f1 f2 : Fetch)
    (h1 : get_current_leaderboard f1 = [])
    (h2 : scrape_espn_leaderboard f2 = []) :
    get_comprehensive_stats f1 f2 = some [] ∧
    (∀ (fLb fEs fSt : Fetch) (cats : List String),
      test_scraper_categories fLb fEs fSt f1 f2 = some cats →
      "comprehensive" ∉ cats) := by
  have hcomp : get_comprehensive_stats f1 f2 = some [] := by
    simp [get_comprehensive_stats, h1, h2]
  refine ⟨hcomp, ?_⟩
  intro fLb fEs fSt cats hcats
  simp only [test_scraper_categories, hcomp] at hcats
  rcases Option.some.inj hcats with rfl
  by_cases ha : (get_current_leaderboard fLb).isEmpty <;>
    by_cases hb : (scrape_espn_leaderboard fEs).isEmpty <;>
      by_cases hc : (scrape_player_stats_page fSt).isEmpty <;>
        simp [ha, hb, hc]

/-- Witness for C3: with both comprehensive-stage fetches failing, the
comprehensive set is empty, and a run whose leaderboard test succeeded
writes only the leaderboard file — no comprehensive file. -/
theorem claim_C3_witness :
    get_comprehensive_stats Fetch.fail Fetch.fail = some [] ∧
    "comprehensive" ∉ (["pga_leaderboard"] : List String) :=
  ⟨(claim_C3_secondary_fallback Fetch.fail Fetch.fail rfl rfl).1,
   (claim_C3_secondary_fallback Fetch.fail Fetch.fail rfl rfl).2
     (Fetch.resp 200 sampleTableSoup) Fetch.fail Fetch.fail ["pga_leaderboard"] rfl⟩

/-- Claim C4: every extraction operation returns a (possibly empty) record
set or a dict and never lets an exception reach its caller; a network
failure, a non-200 status, a missing expected structure and a raised
value-coercion error each degrade to the empty result, and
`get_comprehensive_stats` (the one method without a `try`) still cannot
raise. -/
theorem claim_C4_error_swallowing (status : Nat) (soup nos bad : Soup) (name : String)
    (f1 f2 : Fetch)
    (hstatus : status ≠ 200)
    (hscript : nos.nextDataScript = none)
    (htable : locate_leaderboard_table nos = none)
    (hexc : bad.statItems.foldlM updateStats (0, 0, (0 : ℚ)) = none) :
    get_current_leaderboard Fetch.fail = [] ∧
    scrape_espn_leaderboard Fetch.fail = [] ∧
    scrape_player_stats_page Fetch.fail = [] ∧
    get_player_historical_stats name Fetch.fail = [] ∧
    get_current_leaderboard (Fetch.resp status soup) = [] ∧
    scrape_espn_leaderboard (Fetch.resp status soup) = [] ∧
    scrape_player_stats_page (Fetch.resp status soup) = [] ∧
    get_player_historical_stats name (Fetch.resp status soup) = [] ∧
    get_current_leaderboard (Fetch.resp 200 nos) = [] ∧
    get_player_historical_stats name (Fetch.resp 200 bad) = [] ∧
    (get_comprehensive_stats f1 f2).isSome := by
  refine ⟨rfl, rfl, rfl, rfl, ?_, ?_, ?_, ?_, ?_, ?_,
    get_comprehensive_stats_isSome f1 f2⟩
  · simp only [get_current_leaderboard, if_neg hstatus]
  · simp only [scrape_espn_leaderboard, if_neg hstatus]
  · simp only [scrape_player_stats_page, if_neg hstatus]
  · simp only [get_player_historical_stats, if_neg hstatus]
  · simp only [get_current_leaderboard, hscript, if_pos rfl,
      scrape_leaderboard_table, htable]
    simp
  · simp only [get_player_historical_stats]
    rw [hexc]
    simp

/-- Witness for C4: all the failure modes at concrete inputs (the
coercion failure on an earnings value whose cleaned string is `1.2.3`). -/
theorem claim_C4_witness :
    get_current_leaderboard Fetch.fail = [] ∧
    scrape_espn_leaderboard Fetch.fail = [] ∧
    scrape_player_stats_page Fetch.fail = [] ∧
    get_player_historical_stats "Rahm" Fetch.fail = [] ∧
    get_current_leaderboard (Fetch.resp 404 emptySoup) = [] ∧
    scrape_espn_leaderboard (Fetch.resp 404 emptySoup) = [] ∧
    scrape_player_stats_page (Fetch.resp 404 emptySoup) = [] ∧
    get_player_historical_stats "Rahm" (Fetch.resp 404 emptySoup) = [] ∧
    get_current_leaderboard (Fetch.resp 200 emptySoup) = [] ∧
    get_player_historical_stats "Rahm" (Fetch.resp 200 c10_bad_soup) = [] ∧
    (get_comprehensive_stats Fetch.fail Fetch.fail).isSome :=
  claim_C4_error_swallowing 404 emptySoup emptySoup c10_bad_soup "Rahm" Fetch.fail Fetch.fail
    (by decide) rfl rfl (by decide)
